import Mathlib

set_option maxRecDepth 8192

/-!
Shallow embedding of the TMC2660 smart-driver subsystem of RepRapFirmware
(src/src/Movement/StepperDrivers/TMC2660.cpp).  Machine integers (uint32_t)
are modelled as Nat; 32-bit complement and subtraction are made explicit.
Hardware side effects (SPI peripheral programming, chip-select toggling,
DMA) are outside the state; the observable state of each driver and of the
facade is carried explicitly.
-/

/-- Bitwise 32-bit complement (C `~m` on uint32_t), valid for m < 2^32. -/
def compl32 (m : Nat) : Nat := 0xFFFFFFFF ^^^ m

/-- Unsigned 32-bit subtraction (C `a - b` on uint32_t), valid for a, b < 2^32. -/
def sub32 (a b : Nat) : Nat := (a + (4294967296 - b)) % 4294967296

/-- Byte swap of a 32-bit word.  The SAM4 CPU is little-endian, so the
function `be32_to_cpu` used by the firmware is a byte reversal. -/
def bswap32 (x : Nat) : Nat :=
  ((x &&& 0xFF) <<< 24) ||| (((x >>> 8) &&& 0xFF) <<< 16) |||
  (((x >>> 16) &&& 0xFF) <<< 8) ||| ((x >>> 24) &&& 0xFF)

/-- The conversion `be32_to_cpu` on the little-endian target. -/
def be32_to_cpu (x : Nat) : Nat := bswap32 x

-- TMC2660 register addresses (TMC2660.cpp)
def TMC_REG_DRVCTRL : Nat := 0
def TMC_REG_CHOPCONF : Nat := 0x80000
def TMC_REG_SMARTEN : Nat := 0xA0000
def TMC_REG_SGCSCONF : Nat := 0xC0000
def TMC_REG_DRVCONF : Nat := 0xE0000
def TMC_DATA_MASK : Nat := 0x0001FFFF

-- Chopper control register bits
def TMC_CHOPCONF_TOFF_MASK : Nat := 15
def TMC_CHOPCONF_TOFF_SHIFT : Nat := 0
def TMC_CHOPCONF_RNDTF : Nat := 1 <<< 13
def TMC_CHOPCONF_CHM : Nat := 1 <<< 14
def TMC_CHOPCONF_TBL_MASK : Nat := 3 <<< 15

-- Drive control register bits (SDOFF = 0)
def TMC_DRVCTRL_MRES_MASK : Nat := 0x0F
def TMC_DRVCTRL_MRES_SHIFT : Nat := 0
def TMC_DRVCTRL_INTPOL : Nat := 1 <<< 9

-- stallGuard2 control register bits
def TMC_SGCSCONF_SGT_MASK : Nat := 127 <<< 8
def TMC_SGCSCONF_SGT_SHIFT : Nat := 8
def TMC_SGCSCONF_SGT_SFILT : Nat := 1 <<< 16

/-- Modelled from the spec: readback status bit positions (SG[0], OT[1],
OTPW[2], S2G[3], OLA[5], OLB[6], STST[7], LOAD at shift 10); the header
TMC2660.h defining the `TMC_RR_*` constants is not under src/. -/
def TMC_RR_SG : Nat := 1 <<< 0
def TMC_RR_OT : Nat := 1 <<< 1
def TMC_RR_OTPW : Nat := 1 <<< 2
def TMC_RR_S2G : Nat := 1 <<< 3
def TMC_RR_OLA : Nat := 1 <<< 5
def TMC_RR_OLB : Nat := 1 <<< 6
def TMC_RR_STST : Nat := 1 <<< 7
def TMC_RR_SG_LOAD_SHIFT : Nat := 10

/-- The set of externally reported status bits used by ReadLiveStatus and
ReadAccumulatedStatus. -/
def reportedStatusBits : Nat :=
  TMC_RR_SG ||| TMC_RR_OT ||| TMC_RR_OTPW ||| TMC_RR_S2G |||
  TMC_RR_OLA ||| TMC_RR_OLB ||| TMC_RR_STST

-- Chopper control register default: TBL(2), HDEC(0), HEND(3), HSTRT(3), TOFF(4)
def defaultChopConfReg : Nat :=
  TMC_REG_CHOPCONF ||| ((2 &&& 3) <<< 15) ||| ((0 &&& 3) <<< 11) |||
  ((3 &&& 15) <<< 7) ||| ((3 &&& 7) <<< 4) ||| ((4 &&& 15) <<< 0)

-- StallGuard configuration register default: SGT(DefaultStallGuardThreshold = 1)
def defaultSgscConfReg : Nat := TMC_REG_SGCSCONF ||| ((1 &&& 127) <<< 8)

-- Driver configuration register default: RDSEL_1, VSENSE, TS2G_0P8
def defaultDrvConfReg : Nat := TMC_REG_DRVCONF ||| (1 <<< 4) ||| (1 <<< 6) ||| (3 <<< 8)

-- Driver control register default: MRES_16, INTPOL
def defaultDrvCtrlReg : Nat := TMC_REG_DRVCTRL ||| 0x04 ||| TMC_DRVCTRL_INTPOL

-- coolStep control register default
def defaultSmartEnReg : Nat := TMC_REG_SMARTEN

/-- Modelled from the spec: the three chopper driver modes plus the
rejected/unknown case (the DriverMode enumeration lives in a header that is
not under src/). -/
inductive DriverMode where
  | spreadCycle
  | constantOffTime
  | randomOffTime
  | unknown
deriving DecidableEq

/-- Per-driver state of `class TmcDriverState`.  The five writable register
shadows `registers[0..4]` are the five `reg…` fields. -/
structure TmcDriverState where
  regDriveControl : Nat
  regStallGuardConfig : Nat
  regChopperControl : Nat
  regDriveConfig : Nat
  regSmartEnable : Nat
  pin : Nat
  configuredChopConfReg : Nat
  registersToUpdate : Nat
  axisNumber : Nat
  microstepShiftFactor : Nat
  maxStallStepInterval : Nat
  minSgLoadRegister : Nat
  maxSgLoadRegister : Nat
  lastReadStatus : Nat
  accumulatedStatus : Nat
  enabled : Bool
deriving DecidableEq

namespace TmcDriverState

-- Register numbers, in priority order (most urgent first)
def DriveControl : Nat := 0
def StallGuardConfig : Nat := 1
def ChopperControl : Nat := 2
def DriveConfig : Nat := 3
def SmartEnable : Nat := 4
def NumRegisters : Nat := 5
def UpdateAllRegisters : Nat := (1 <<< NumRegisters) - 1

/-- The element `registers[i]` of the C++ class. -/
def getReg (s : TmcDriverState) : Nat → Nat
  | 0 => s.regDriveControl
  | 1 => s.regStallGuardConfig
  | 2 => s.regChopperControl
  | 3 => s.regDriveConfig
  | _ => s.regSmartEnable

def UpdateChopConfRegister (s : TmcDriverState) : TmcDriverState :=
  { s with
    regChopperControl :=
      if s.enabled then s.configuredChopConfReg
      else s.configuredChopConfReg &&& compl32 TMC_CHOPCONF_TOFF_MASK,
    registersToUpdate := s.registersToUpdate ||| (1 <<< ChopperControl) }

def SetChopConf (s : TmcDriverState) (newVal : Nat) : Bool × TmcDriverState :=
  let toff := (newVal &&& TMC_CHOPCONF_TOFF_MASK) >>> TMC_CHOPCONF_TOFF_SHIFT
  if toff = 0 ∨ (toff = 1 ∧ (newVal &&& TMC_CHOPCONF_TBL_MASK) = 0) then
    (false, s)
  else
    let s := { s with configuredChopConfReg := (newVal &&& 0x0001FFFF) ||| TMC_REG_CHOPCONF }
    (true, s.UpdateChopConfRegister)

def SetOffTime (s : TmcDriverState) (newVal : Nat) : Bool × TmcDriverState :=
  if newVal > 15 then
    (false, s)
  else
    s.SetChopConf ((s.configuredChopConfReg &&& compl32 TMC_CHOPCONF_TOFF_MASK) |||
      ((newVal <<< TMC_CHOPCONF_TOFF_SHIFT) &&& TMC_CHOPCONF_TOFF_MASK))

def SetDriverMode (s : TmcDriverState) (mode : DriverMode) : Bool × TmcDriverState :=
  match mode with
  | .constantOffTime =>
      s.SetChopConf ((s.configuredChopConfReg &&& compl32 TMC_CHOPCONF_RNDTF) ||| TMC_CHOPCONF_CHM)
  | .randomOffTime =>
      s.SetChopConf (s.configuredChopConfReg ||| TMC_CHOPCONF_RNDTF ||| TMC_CHOPCONF_CHM)
  | .spreadCycle =>
      s.SetChopConf (s.configuredChopConfReg &&& compl32 (TMC_CHOPCONF_RNDTF ||| TMC_CHOPCONF_CHM))
  | .unknown => (false, s)

/-- The method `SetMicrostepping(shift, interpolate)`; the C++ method always returns
true, so only the updated state is returned here. -/
def SetMicrostepping (s : TmcDriverState) (shift : Nat) (interpolate : Bool) : TmcDriverState :=
  let drvCtrlReg := s.regDriveControl &&& compl32 TMC_DRVCTRL_MRES_MASK
  let drvCtrlReg := drvCtrlReg |||
    (((sub32 8 shift) <<< TMC_DRVCTRL_MRES_SHIFT) &&& TMC_DRVCTRL_MRES_MASK)
  let drvCtrlReg :=
    if interpolate then drvCtrlReg ||| TMC_DRVCTRL_INTPOL
    else drvCtrlReg &&& compl32 TMC_DRVCTRL_INTPOL
  { s with
    microstepShiftFactor := shift,
    regDriveControl := drvCtrlReg,
    registersToUpdate := s.registersToUpdate ||| (1 <<< DriveControl) }

def Enable (s : TmcDriverState) (en : Bool) : TmcDriverState :=
  if s.enabled ≠ en then
    let s :=
      if en then
        { s with
          accumulatedStatus := s.accumulatedStatus &&& compl32 TMC_RR_SG,
          lastReadStatus := s.lastReadStatus &&& compl32 TMC_RR_SG }
      else s
    ({ s with enabled := en }).UpdateChopConfRegister
  else s

def ReadLiveStatus (s : TmcDriverState) : Nat :=
  let ret := s.lastReadStatus &&& reportedStatusBits
  if s.enabled then ret else ret &&& compl32 TMC_RR_SG

/-- The method `ReadAccumulatedStatus(bitsToKeep)` returns the value produced and the
updated state (the critical section of the C++ code is the atomic
read-modify of `accumulatedStatus`, which is this state update). -/
def ReadAccumulatedStatus (s : TmcDriverState) (bitsToKeep : Nat) : Nat × TmcDriverState :=
  let mask := if s.enabled then 0xFFFFFFFF else compl32 TMC_RR_SG
  let bitsToKeep := bitsToKeep &&& mask
  let status := s.accumulatedStatus
  (status &&& reportedStatusBits &&& mask,
   { s with accumulatedStatus := s.accumulatedStatus &&& bitsToKeep })

/-- Modelled from the spec: `constrain<int>` from the firmware utility header
(not under src/) clamps its argument into the closed interval. -/
def constrainInt (v lo hi : Int) : Int :=
  if v < lo then lo else if v > hi then hi else v

def SetStallDetectThreshold (s : TmcDriverState) (sgThreshold : Int) : TmcDriverState :=
  let sgVal : Nat := ((constrainInt sgThreshold (-64) 63).emod 4294967296).toNat &&& 127
  { s with
    regStallGuardConfig := (s.regStallGuardConfig &&& compl32 TMC_SGCSCONF_SGT_MASK) |||
      (sgVal <<< TMC_SGCSCONF_SGT_SHIFT),
    registersToUpdate := s.registersToUpdate ||| (1 <<< StallGuardConfig) }

def SetStallDetectFilter (s : TmcDriverState) (sgFilter : Bool) : TmcDriverState :=
  { s with
    regStallGuardConfig :=
      if sgFilter then s.regStallGuardConfig ||| TMC_SGCSCONF_SGT_SFILT
      else s.regStallGuardConfig &&& compl32 TMC_SGCSCONF_SGT_SFILT,
    registersToUpdate := s.registersToUpdate ||| (1 <<< StallGuardConfig) }

/-- The method `SetStallMinimumStepsPerSecond`; `StepClockRate` is a platform constant
not under src/, so it is passed as a parameter. -/
def SetStallMinimumStepsPerSecond (s : TmcDriverState) (stepsPerSecond stepClockRate : Nat) :
    TmcDriverState :=
  { s with maxStallStepInterval := stepClockRate / max stepsPerSecond 1 }

/-- The stall threshold number printed by `AppendStallConfig`: the raw SGT
field, sign-extended by subtracting 128 when it is at least 64. -/
def AppendStallConfigThreshold (s : TmcDriverState) : Int :=
  let raw := (s.regStallGuardConfig &&& TMC_SGCSCONF_SGT_MASK) >>> TMC_SGCSCONF_SGT_SHIFT
  if 64 ≤ raw then (raw : Int) - 128 else (raw : Int)

def WriteAll (s : TmcDriverState) : TmcDriverState :=
  { s with registersToUpdate := UpdateAllRegisters }

def GetChopConf (s : TmcDriverState) : Nat := s.configuredChopConfReg &&& TMC_DATA_MASK

def GetOffTime (s : TmcDriverState) : Nat :=
  (s.configuredChopConfReg &&& TMC_CHOPCONF_TOFF_MASK) >>> TMC_CHOPCONF_TOFF_SHIFT

/-- The method `GetMicrostepping` returns the microstep count and the interpolation flag. -/
def GetMicrostepping (s : TmcDriverState) : Nat × Bool :=
  (1 <<< s.microstepShiftFactor, (s.regDriveControl &&& TMC_DRVCTRL_INTPOL) != 0)

/-- The method `Init(axisNumber, pin)`; drivers start disabled with the chopper off-time
field cleared and every register marked dirty. -/
def Init (p_axisNumber p_pin stepClockRate : Nat) : TmcDriverState :=
  let s : TmcDriverState :=
    { regDriveControl := defaultDrvCtrlReg
      regStallGuardConfig := defaultSgscConfReg
      regChopperControl := defaultChopConfReg &&& compl32 TMC_CHOPCONF_TOFF_MASK
      regDriveConfig := defaultDrvConfReg
      regSmartEnable := defaultSmartEnReg
      pin := p_pin
      configuredChopConfReg := defaultChopConfReg
      registersToUpdate := UpdateAllRegisters
      axisNumber := p_axisNumber
      microstepShiftFactor := 0
      maxStallStepInterval := 0
      minSgLoadRegister := 1023
      maxSgLoadRegister := 0
      lastReadStatus := 0
      accumulatedStatus := 0
      enabled := false }
  let s := s.SetMicrostepping 4 true
  let s := s.SetStallDetectThreshold 1
  let s := s.SetStallDetectFilter false
  s.SetStallMinimumStepsPerSecond 200 stepClockRate

/-- The SPI ISR tail `TransferDone()`.  Here `spiDataIn` is the received wire
word and `interval` is the value returned by the motion planner collaborator
through `GetStepInterval`. -/
def TransferDone (s : TmcDriverState) (driversPowered : Bool) (spiDataIn interval : Nat) :
    TmcDriverState :=
  if driversPowered then
    let status := be32_to_cpu spiDataIn >>> 12
    if interval = 0 ∨ interval > s.maxStallStepInterval then
      let status := status &&& compl32 TMC_RR_SG
      { s with lastReadStatus := status, accumulatedStatus := s.accumulatedStatus ||| status }
    else
      let sgLoad := (status >>> TMC_RR_SG_LOAD_SHIFT) &&& 1023
      { s with
        minSgLoadRegister :=
          if sgLoad < s.minSgLoadRegister then sgLoad else s.minSgLoadRegister,
        maxSgLoadRegister :=
          if sgLoad > s.maxSgLoadRegister then sgLoad else s.maxSgLoadRegister,
        lastReadStatus := status,
        accumulatedStatus := s.accumulatedStatus ||| status }
  else s

/-- The register-selection do-while loop of `StartTransfer`.  The loop body
runs at most `NumRegisters - 1` times, so a fuel of 4 makes the recursion
structural without changing the computed result. -/
def findDirty : Nat → Nat → Nat → Nat → Nat × Nat
  | 0, _, regNum, mask => (regNum, mask)
  | fuel + 1, rtu, regNum, mask =>
    if rtu &&& mask ≠ 0 then (regNum, mask)
    else if regNum + 1 < NumRegisters - 1 then findDirty fuel rtu (regNum + 1) (mask <<< 1)
    else (regNum + 1, mask <<< 1)

/-- The method `StartTransfer()`: returns the register value handed to the SPI DMA and
the updated driver state (the cleared dirty bit). -/
def StartTransfer (s : TmcDriverState) : Nat × TmcDriverState :=
  if s.registersToUpdate = 0 then
    (s.regSmartEnable, s)
  else
    let rm := findDirty 4 s.registersToUpdate 0 1
    (s.getReg rm.1, { s with registersToUpdate := s.registersToUpdate &&& compl32 rm.2 })

end TmcDriverState

/-- The shift-counting while loop of `SmartDrivers::SetMicrostepping`.
The C loop diverges on input 0; every call is guarded by `microsteps > 0`,
and the (unreached) zero case is given a value to keep the recursion
well founded. -/
def countShift (uSteps shift : Nat) : Nat × Nat :=
  if uSteps &&& 1 = 0 then
    if h0 : uSteps = 0 then (uSteps, shift)
    else countShift (uSteps >>> 1) (shift + 1)
  else (uSteps, shift)
termination_by uSteps
decreasing_by
  have : uSteps >>> 1 = uSteps / 2 := by
    simp [Nat.shiftRight_succ, Nat.shiftRight_zero]
  rw [this]
  exact Nat.div_lt_self (Nat.pos_of_ne_zero h0) (by decide)

/-- Global state of the `SmartDrivers` facade: the per-driver state array, the
`driversPowered` flag, the ISR variable `currentDriver` (as an index), and the level
of the shared global enable pin (high = drivers disabled). -/
structure SmartDriversState where
  drivers : List TmcDriverState
  driversPowered : Bool
  currentDriver : Option Nat
  enableLineHigh : Bool
deriving DecidableEq

namespace SmartDrivers

/-- Placeholder element for out-of-range list access (never used under the
`driver < numTmc2660Drivers` guards). -/
def dummyDriver : TmcDriverState := TmcDriverState.Init 0 0 1

/-- The element `driverStates[d]`. -/
def nthDriver : List TmcDriverState → Nat → TmcDriverState
  | [], _ => dummyDriver
  | x :: _, 0 => x
  | _ :: xs, n + 1 => nthDriver xs n

/-- In-place update of `driverStates[d]`. -/
def setNthDriver : List TmcDriverState → Nat → TmcDriverState → List TmcDriverState
  | [], _, _ => []
  | _ :: xs, 0, v => v :: xs
  | x :: xs, n + 1, v => x :: setNthDriver xs n v

def numDrivers (gs : SmartDriversState) : Nat := gs.drivers.length

def getDriver (gs : SmartDriversState) (d : Nat) : TmcDriverState := nthDriver gs.drivers d

def updDriver (gs : SmartDriversState) (d : Nat) (f : TmcDriverState → TmcDriverState) :
    SmartDriversState :=
  { gs with drivers := setNthDriver gs.drivers d (f (getDriver gs d)) }

def SetAxisNumber (gs : SmartDriversState) (d axisNumber : Nat) : SmartDriversState :=
  if d < numDrivers gs then updDriver gs d (fun s => { s with axisNumber := axisNumber }) else gs

def EnableDrive (gs : SmartDriversState) (d : Nat) (en : Bool) : SmartDriversState :=
  if d < numDrivers gs then updDriver gs d (fun s => s.Enable en) else gs

def GetLiveStatus (gs : SmartDriversState) (d : Nat) : Nat :=
  if d < numDrivers gs then (getDriver gs d).ReadLiveStatus else 0

def GetAccumulatedStatus (gs : SmartDriversState) (d bitsToKeep : Nat) : Nat × SmartDriversState :=
  if d < numDrivers gs then
    let r := (getDriver gs d).ReadAccumulatedStatus bitsToKeep
    (r.1, { gs with drivers := setNthDriver gs.drivers d r.2 })
  else (0, gs)

def SetMicrostepping (gs : SmartDriversState) (d microsteps : Nat) (interpolate : Bool) :
    Bool × SmartDriversState :=
  if d < numDrivers gs ∧ 0 < microsteps then
    let r := countShift microsteps 0
    if r.1 = 1 ∧ r.2 ≤ 8 then
      (true, updDriver gs d (fun s => s.SetMicrostepping r.2 interpolate))
    else (false, gs)
  else (false, gs)

def GetMicrostepping (gs : SmartDriversState) (d : Nat) : Nat × Bool :=
  if d < numDrivers gs then (getDriver gs d).GetMicrostepping else (1, false)

def SetDriverMode (gs : SmartDriversState) (d : Nat) (mode : DriverMode) :
    Bool × SmartDriversState :=
  if d < numDrivers gs then
    let r := (getDriver gs d).SetDriverMode mode
    (r.1, { gs with drivers := setNthDriver gs.drivers d r.2 })
  else (false, gs)

def SetChopperControlRegister (gs : SmartDriversState) (d ccr : Nat) :
    Bool × SmartDriversState :=
  if d < numDrivers gs then
    let r := (getDriver gs d).SetChopConf ccr
    (r.1, { gs with drivers := setNthDriver gs.drivers d r.2 })
  else (false, gs)

def GetChopperControlRegister (gs : SmartDriversState) (d : Nat) : Nat :=
  if d < numDrivers gs then (getDriver gs d).GetChopConf else 0

def SetOffTime (gs : SmartDriversState) (d offTime : Nat) : Bool × SmartDriversState :=
  if d < numDrivers gs then
    let r := (getDriver gs d).SetOffTime offTime
    (r.1, { gs with drivers := setNthDriver gs.drivers d r.2 })
  else (false, gs)

def GetOffTime (gs : SmartDriversState) (d : Nat) : Nat :=
  if d < numDrivers gs then (getDriver gs d).GetOffTime else 0

def SetStallThreshold (gs : SmartDriversState) (d : Nat) (sgThreshold : Int) :
    SmartDriversState :=
  if d < numDrivers gs then updDriver gs d (fun s => s.SetStallDetectThreshold sgThreshold) else gs

/-- Runs `driverStates[i].StartTransfer()` plus the `currentDriver = this`
publication; the register value itself goes to the SPI hardware. -/
def startTransferAt (gs : SmartDriversState) (i : Nat) : SmartDriversState :=
  let r := (getDriver gs i).StartTransfer
  { gs with currentDriver := some i, drivers := setNthDriver gs.drivers i r.2 }

/-- The facade method `SmartDrivers::Spin(powered)`. -/
def Spin (gs : SmartDriversState) (powered : Bool) : SmartDriversState :=
  let wasPowered := gs.driversPowered
  let gs1 := { gs with driversPowered := powered }
  if powered then
    let gs2 :=
      if ¬wasPowered then
        { gs1 with
          enableLineHigh := false,
          drivers := gs1.drivers.map TmcDriverState.WriteAll }
      else gs1
    if gs2.currentDriver = none ∧ gs2.drivers.length ≠ 0 then startTransferAt gs2 0 else gs2
  else if wasPowered then { gs1 with enableLineHigh := true } else gs1

/-- The facade method `SmartDrivers::TurnDriversOff()`. -/
def TurnDriversOff (gs : SmartDriversState) : SmartDriversState :=
  { gs with enableLineHigh := true, driversPowered := false }

end SmartDrivers

/-- The claimed invariant: the off-time field of shadow register 2 is zero
exactly when the driver is logically disabled, strengthened with the auxiliary
fact (needed for preservation) that the configured chopper value always has a
nonzero off-time field. -/
def ChopInvariant (s : TmcDriverState) : Prop :=
  ((s.regChopperControl &&& TMC_CHOPCONF_TOFF_MASK = 0) ↔ s.enabled = false) ∧
  s.configuredChopConfReg &&& TMC_CHOPCONF_TOFF_MASK ≠ 0

instance (s : TmcDriverState) : Decidable (ChopInvariant s) := by
  unfold ChopInvariant
  infer_instance

/-- A concrete driver state, as produced by `Init` with axis 0, CS pin 10 and
a step clock of 1000 ticks per second. -/
def sampleDriver : TmcDriverState := TmcDriverState.Init 0 10 1000

/-- A concrete facade state with a single driver, not powered. -/
def sampleSystem : SmartDriversState :=
  { drivers := [sampleDriver], driversPowered := false, currentDriver := none,
    enableLineHigh := true }

/-- A driver that is enabled and whose most recent ISR status read had the SG
bit set (as the ISR produces while stalling inside the detection window). -/
def stalledEnabledDriver : TmcDriverState :=
  { sampleDriver with enabled := true, lastReadStatus := 1 }

/-- Facade state around `stalledEnabledDriver`. -/
def stalledEnabledSystem : SmartDriversState :=
  { drivers := [stalledEnabledDriver], driversPowered := true, currentDriver := some 0,
    enableLineHigh := false }

/-- A driver whose accumulated status carries a load bit (bit 10), outside the
reported status-bit set. -/
def loadBitDriver : TmcDriverState :=
  { sampleDriver with enabled := true, accumulatedStatus := 1024 }

/-- Powered facade state with an idle bus: `driversPowered` is already true
while `currentDriver` is null. -/
def idlePoweredSystem : SmartDriversState :=
  { drivers := [sampleDriver], driversPowered := true, currentDriver := none,
    enableLineHigh := false }

/-! ### Bitwise toolkit -/

theorem compl32_testBit (m i : Nat) (hm : m < 4294967296) :
    (compl32 m).testBit i = (decide (i < 32) && !(m.testBit i)) := by
  have h32 : (0xFFFFFFFF : Nat) = 2 ^ 32 - 1 := by norm_num
  unfold compl32
  rw [Nat.testBit_xor, h32, Nat.testBit_two_pow_sub_one]
  by_cases h : i < 32
  · simp [h]
  · have hm2 : m.testBit i = false :=
      Nat.testBit_lt_two_pow
        (lt_of_lt_of_le hm (Nat.pow_le_pow_right (show 0 < 2 by norm_num) (Nat.le_of_not_lt h)))
    simp [h, hm2]

theorem land_lor_right (a b m : Nat) : (a ||| b) &&& m = (a &&& m) ||| (b &&& m) := by
  apply Nat.eq_of_testBit_eq
  intro i
  simp only [Nat.testBit_and, Nat.testBit_or]
  cases a.testBit i <;> cases b.testBit i <;> cases m.testBit i <;> rfl

theorem and_compl32_and_self (a m : Nat) (hm : m < 4294967296) :
    (a &&& compl32 m) &&& m = 0 := by
  apply Nat.eq_of_testBit_eq
  intro i
  simp only [Nat.testBit_and, Nat.zero_testBit, compl32_testBit m i hm]
  cases m.testBit i <;> simp

theorem and_compl32_self (m : Nat) (hm : m < 4294967296) : m &&& compl32 m = 0 := by
  apply Nat.eq_of_testBit_eq
  intro i
  simp only [Nat.testBit_and, Nat.zero_testBit, compl32_testBit m i hm]
  cases m.testBit i <;> simp

theorem and_compl32_of_disjoint (a m n : Nat) (hm : m < 4294967296) (hn : n < 4294967296)
    (h : m &&& n = 0) : (a &&& compl32 m) &&& n = a &&& n := by
  apply Nat.eq_of_testBit_eq
  intro i
  have hb : (m &&& n).testBit i = false := by rw [h]; exact Nat.zero_testBit i
  rw [Nat.testBit_and] at hb
  simp only [Nat.testBit_and, compl32_testBit m i hm]
  by_cases hni : n.testBit i = true
  · have hmi : m.testBit i = false := by
      cases hmi : m.testBit i
      · rfl
      · rw [hmi, hni] at hb; exact absurd hb (by decide)
    have hi : i < 32 := by
      by_contra hge
      have hz : n.testBit i = false :=
        Nat.testBit_lt_two_pow
          (lt_of_lt_of_le hn (Nat.pow_le_pow_right (show 0 < 2 by norm_num) (Nat.le_of_not_lt hge)))
      rw [hz] at hni; exact absurd hni (by decide)
    simp [hni, hmi, hi]
  · have hz : n.testBit i = false := by
      cases h2 : n.testBit i
      · rfl
      · exact absurd h2 hni
    simp [hz]

theorem field_roundtrip (old v w sft : Nat) (hv : v < 2 ^ w) (hw : sft + w ≤ 32) :
    (((old &&& compl32 ((2 ^ w - 1) <<< sft)) ||| (v <<< sft)) &&&
        ((2 ^ w - 1) <<< sft)) >>> sft = v := by
  have hM : (2 ^ w - 1) <<< sft < 4294967296 := by
    rw [Nat.shiftLeft_eq]
    calc (2 ^ w - 1) * 2 ^ sft < 2 ^ w * 2 ^ sft := by
          exact (Nat.mul_lt_mul_right (Nat.pos_pow_of_pos sft (show 0 < 2 by norm_num))).mpr
            (Nat.sub_lt (Nat.pos_pow_of_pos w (show 0 < 2 by norm_num)) (by norm_num))
      _ = 2 ^ (w + sft) := (Nat.pow_add 2 w sft).symm
      _ ≤ 2 ^ 32 := Nat.pow_le_pow_right (show 0 < 2 by norm_num) (by omega)
      _ = 4294967296 := by norm_num
  apply Nat.eq_of_testBit_eq
  intro i
  rw [Nat.testBit_shiftRight]
  by_cases hiw : i < w
  · have h1 : ((2 ^ w - 1) <<< sft).testBit (sft + i) = true := by
      rw [Nat.testBit_shiftLeft]
      simp [Nat.le_add_right, Nat.add_sub_cancel_left, Nat.testBit_two_pow_sub_one, hiw]
    have h2 : (v <<< sft).testBit (sft + i) = v.testBit i := by
      rw [Nat.testBit_shiftLeft]
      simp [Nat.le_add_right, Nat.add_sub_cancel_left]
    rw [Nat.testBit_and, Nat.testBit_or, h2, Nat.testBit_and, compl32_testBit _ _ hM, h1]
    simp
  · have h1 : ((2 ^ w - 1) <<< sft).testBit (sft + i) = false := by
      rw [Nat.testBit_shiftLeft]
      simp [Nat.le_add_right, Nat.add_sub_cancel_left, Nat.testBit_two_pow_sub_one, hiw]
    have h3 : v.testBit i = false :=
      Nat.testBit_lt_two_pow
        (lt_of_lt_of_le hv (Nat.pow_le_pow_right (show 0 < 2 by norm_num) (Nat.le_of_not_lt hiw)))
    rw [Nat.testBit_and, h1, h3]
    simp

theorem and15_small : ∀ n, n ≤ 15 → n &&& 15 = n := by decide

theorem and_tbl_small : ∀ n, n ≤ 15 → n &&& TMC_CHOPCONF_TBL_MASK = 0 := by decide

theorem sub32_of_le (a b : Nat) (h : b ≤ a) (ha : a < 4294967296) : sub32 a b = a - b := by
  unfold sub32
  omega

/-! ### List helpers for the driver array -/

theorem nthDriver_setNthDriver_self (l : List TmcDriverState) (d : Nat) (v : TmcDriverState)
    (h : d < l.length) :
    SmartDrivers.nthDriver (SmartDrivers.setNthDriver l d v) d = v := by
  induction l generalizing d with
  | nil => simp at h
  | cons x xs ih =>
    cases d with
    | zero => rfl
    | succ n =>
      exact ih n (by simpa using Nat.lt_of_succ_lt_succ (by simpa using h))

theorem setNthDriver_nthDriver_self (l : List TmcDriverState) (d : Nat) (h : d < l.length) :
    SmartDrivers.setNthDriver l d (SmartDrivers.nthDriver l d) = l := by
  induction l generalizing d with
  | nil => simp at h
  | cons x xs ih =>
    cases d with
    | zero => rfl
    | succ n =>
      simp only [SmartDrivers.setNthDriver, SmartDrivers.nthDriver]
      rw [ih n (by simpa using Nat.lt_of_succ_lt_succ (by simpa using h))]

theorem length_setNthDriver (l : List TmcDriverState) (d : Nat) (v : TmcDriverState) :
    (SmartDrivers.setNthDriver l d v).length = l.length := by
  induction l generalizing d with
  | nil => rfl
  | cons x xs ih =>
    cases d with
    | zero => rfl
    | succ n => simp [SmartDrivers.setNthDriver, ih n]

theorem getDriver_updDriver (gs : SmartDriversState) (d : Nat)
    (f : TmcDriverState → TmcDriverState) (h : d < SmartDrivers.numDrivers gs) :
    SmartDrivers.getDriver (SmartDrivers.updDriver gs d f) d = f (SmartDrivers.getDriver gs d) :=
  nthDriver_setNthDriver_self gs.drivers d _ h

/-! ### C3: register selection in StartTransfer -/

/-- Register-selection loop behaviour for all 5-bit dirty masks, checked
exhaustively. -/
theorem findDirty_spec : ∀ rtu, rtu < 32 → 0 < rtu → ∃ k, k < 5 ∧
    rtu.testBit k = true ∧ (∀ j, j < 5 → j < k → rtu.testBit j = false) ∧
    (TmcDriverState.findDirty 4 rtu 0 1).1 = k ∧
    (TmcDriverState.findDirty 4 rtu 0 1).2 = 1 <<< k ∧
    rtu &&& compl32 (1 <<< k) = rtu ^^^ (1 <<< k) := by decide

/-- C3: whenever a transfer is started with a nonzero dirty mask, the register
sent is the one with the lowest-numbered set bit of the mask and exactly that
bit is cleared; with a zero mask, register 4 (SmartEnable) is sent and the
mask stays zero. -/
theorem c3_startTransfer_priority (s : TmcDriverState) :
    (s.registersToUpdate ≠ 0 → s.registersToUpdate < 32 →
      ∃ k, k < 5 ∧ s.registersToUpdate.testBit k = true ∧
        (∀ j, j < k → s.registersToUpdate.testBit j = false) ∧
        s.StartTransfer = (s.getReg k,
          { s with registersToUpdate := s.registersToUpdate ^^^ (1 <<< k) })) ∧
    (s.registersToUpdate = 0 →
      s.StartTransfer = (s.getReg TmcDriverState.SmartEnable, s)) := by
  constructor
  · intro hne hlt
    obtain ⟨k, hk5, hbit, hlow, h1, h2, h3⟩ :=
      findDirty_spec s.registersToUpdate hlt (Nat.pos_of_ne_zero hne)
    refine ⟨k, hk5, hbit, ?_, ?_⟩
    · intro j hj
      exact hlow j (lt_trans hj hk5) hj
    · simp only [TmcDriverState.StartTransfer]
      rw [if_neg hne, h1, h2, h3]
  · intro h0
    simp only [TmcDriverState.StartTransfer]
    rw [if_pos h0]
    rfl

/-- Witness for C3 at the dirty mask 6 (bits 1 and 2 set): register 1 is sent
and only bit 1 is cleared. -/
theorem c3_startTransfer_priority_witness :
    ∃ k, k < 5 ∧ (({ sampleDriver with registersToUpdate := 6 } :
        TmcDriverState).registersToUpdate.testBit k = true) ∧
      (∀ j, j < k → (({ sampleDriver with registersToUpdate := 6 } :
          TmcDriverState).registersToUpdate.testBit j = false)) ∧
      ({ sampleDriver with registersToUpdate := 6 } : TmcDriverState).StartTransfer =
        (({ sampleDriver with registersToUpdate := 6 } : TmcDriverState).getReg k,
         { ({ sampleDriver with registersToUpdate := 6 } : TmcDriverState) with
            registersToUpdate :=
              ({ sampleDriver with registersToUpdate := 6 } :
                TmcDriverState).registersToUpdate ^^^ (1 <<< k) }) :=
  (c3_startTransfer_priority { sampleDriver with registersToUpdate := 6 }).1
    (by decide) (by decide)

/-! ### C7: accumulated status read -/

/-- C7 (amended): `ReadAccumulatedStatus(bitsToKeep)` atomically snapshots the
accumulator, reduces it to `accumulatedStatus &&& bitsToKeep &&& mask` (mask
all-ones when enabled, SG cleared when disabled), and returns the previous
value masked to the reportable status bits and filtered by the same mask;
consequently every accumulator bit outside `bitsToKeep` is cleared. -/
theorem c7_readAccumulatedStatus (s : TmcDriverState) (bitsToKeep : Nat) :
    (s.ReadAccumulatedStatus bitsToKeep =
      (s.accumulatedStatus &&& reportedStatusBits &&&
         (if s.enabled then 0xFFFFFFFF else compl32 TMC_RR_SG),
       { s with accumulatedStatus :=
          s.accumulatedStatus &&& (bitsToKeep &&&
            (if s.enabled then 0xFFFFFFFF else compl32 TMC_RR_SG)) })) ∧
    (bitsToKeep < 4294967296 →
      (s.ReadAccumulatedStatus bitsToKeep).2.accumulatedStatus &&& compl32 bitsToKeep = 0) := by
  constructor
  · rfl
  · intro hk
    simp only [TmcDriverState.ReadAccumulatedStatus]
    apply Nat.eq_of_testBit_eq
    intro i
    simp only [Nat.testBit_and, Nat.zero_testBit, compl32_testBit bitsToKeep i hk]
    cases hb : bitsToKeep.testBit i <;> simp [hb]

/-- Witness for C7 on a concrete state and keep-mask. -/
theorem c7_readAccumulatedStatus_witness :
    (loadBitDriver.ReadAccumulatedStatus 3).2.accumulatedStatus &&& compl32 3 = 0 :=
  (c7_readAccumulatedStatus loadBitDriver 3).2 (by decide)

/-- Counterexample to C7 as stated: with a load bit (bit 10) latched in the
accumulator, the value returned is not the prior `accumulated_status` — the
code masks the return to the reportable status bits. -/
theorem c7_readAccumulatedStatus_cex :
    (loadBitDriver.ReadAccumulatedStatus 0xFFFFFFFF).1 ≠ loadBitDriver.accumulatedStatus := by
  decide

/-! ### C2: off-time field of shadow register 2 vs the enabled flag -/

theorem chopInvariant_updateChopConf (s : TmcDriverState)
    (h : s.configuredChopConfReg &&& TMC_CHOPCONF_TOFF_MASK ≠ 0) :
    ChopInvariant s.UpdateChopConfRegister := by
  refine ⟨?_, h⟩
  simp only [TmcDriverState.UpdateChopConfRegister]
  cases he : s.enabled
  · simp [he, and_compl32_and_self s.configuredChopConfReg TMC_CHOPCONF_TOFF_MASK (by decide)]
  · simp [he, h]

theorem chopInvariant_setChopConf (s : TmcDriverState) (v : Nat) (h : ChopInvariant s) :
    ChopInvariant (s.SetChopConf v).2 := by
  simp only [TmcDriverState.SetChopConf]
  split
  · exact h
  · rename_i hcond
    apply chopInvariant_updateChopConf
    have htoff : (v &&& TMC_CHOPCONF_TOFF_MASK) >>> TMC_CHOPCONF_TOFF_SHIFT ≠ 0 := by
      intro h0
      exact hcond (Or.inl h0)
    rw [TMC_CHOPCONF_TOFF_SHIFT, Nat.shiftRight_zero] at htoff
    show ((v &&& 0x0001FFFF) ||| TMC_REG_CHOPCONF) &&& TMC_CHOPCONF_TOFF_MASK ≠ 0
    rw [land_lor_right, Nat.and_assoc]
    have h1 : (0x0001FFFF : Nat) &&& TMC_CHOPCONF_TOFF_MASK = TMC_CHOPCONF_TOFF_MASK := by decide
    have h2 : TMC_REG_CHOPCONF &&& TMC_CHOPCONF_TOFF_MASK = 0 := by decide
    rw [h1, h2, Nat.or_zero]
    exact htoff

theorem chopInvariant_setOffTime (s : TmcDriverState) (v : Nat) (h : ChopInvariant s) :
    ChopInvariant (s.SetOffTime v).2 := by
  simp only [TmcDriverState.SetOffTime]
  split
  · exact h
  · exact chopInvariant_setChopConf s _ h

theorem chopInvariant_setDriverMode (s : TmcDriverState) (m : DriverMode)
    (h : ChopInvariant s) : ChopInvariant (s.SetDriverMode m).2 := by
  cases m <;> first
    | exact chopInvariant_setChopConf s _ h
    | exact h

theorem chopInvariant_enable (s : TmcDriverState) (en : Bool) (h : ChopInvariant s) :
    ChopInvariant (s.Enable en) := by
  simp only [TmcDriverState.Enable]
  split
  · split <;> exact chopInvariant_updateChopConf _ h.2
  · exact h

theorem chopInvariant_init (a p r : Nat) : ChopInvariant (TmcDriverState.Init a p r) := by
  constructor
  · have h1 : (TmcDriverState.Init a p r).regChopperControl
        = defaultChopConfReg &&& compl32 TMC_CHOPCONF_TOFF_MASK := rfl
    have h2 : (TmcDriverState.Init a p r).enabled = false := rfl
    rw [h1, h2]
    simp [and_compl32_and_self defaultChopConfReg TMC_CHOPCONF_TOFF_MASK (by decide)]
  · have h3 : (TmcDriverState.Init a p r).configuredChopConfReg = defaultChopConfReg := rfl
    rw [h3]
    decide

/-- C2: `Init` establishes the equivalence "off-time field of shadow register
2 is zero iff the driver is disabled" (with the auxiliary invariant that the
configured chopper value has a nonzero off-time), and `SetChopConf`,
`SetOffTime`, `SetDriverMode` and `Enable` all preserve it. -/
theorem c2_toff_iff_enabled :
    (∀ a p r, ChopInvariant (TmcDriverState.Init a p r)) ∧
    (∀ s v, ChopInvariant s → ChopInvariant (TmcDriverState.SetChopConf s v).2) ∧
    (∀ s v, ChopInvariant s → ChopInvariant (TmcDriverState.SetOffTime s v).2) ∧
    (∀ s m, ChopInvariant s → ChopInvariant (TmcDriverState.SetDriverMode s m).2) ∧
    (∀ s e, ChopInvariant s → ChopInvariant (TmcDriverState.Enable s e)) :=
  ⟨chopInvariant_init, chopInvariant_setChopConf, chopInvariant_setOffTime,
   chopInvariant_setDriverMode, chopInvariant_enable⟩

/-- Witness for C2: the invariant propagates through a concrete enable on a
freshly initialised driver. -/
theorem c2_toff_iff_enabled_witness :
    ChopInvariant (TmcDriverState.Enable (TmcDriverState.Init 0 10 1000) true) :=
  c2_toff_iff_enabled.2.2.2.2 (TmcDriverState.Init 0 10 1000) true (by decide)

/-! ### C1: status decoding in TransferDone -/

/-- C1: on SPI transfer completion while powered, if the axis step interval is
0 or strictly above `maxStallStepInterval` the SG bit is cleared from the
decoded status and the load window is untouched; otherwise (including at
exactly `maxStallStepInterval`) the status is kept as received and the 10-bit
load field is folded into the min/max window; the result goes to
`lastReadStatus` and is OR-ed into `accumulatedStatus`. -/
theorem c1_transferDone_stall_window (s : TmcDriverState) (dataIn interval : Nat) :
    (interval = 0 ∨ s.maxStallStepInterval < interval →
      (s.TransferDone true dataIn interval).lastReadStatus
          = (be32_to_cpu dataIn >>> 12) &&& compl32 TMC_RR_SG ∧
      (s.TransferDone true dataIn interval).accumulatedStatus
          = s.accumulatedStatus ||| ((be32_to_cpu dataIn >>> 12) &&& compl32 TMC_RR_SG) ∧
      (s.TransferDone true dataIn interval).minSgLoadRegister = s.minSgLoadRegister ∧
      (s.TransferDone true dataIn interval).maxSgLoadRegister = s.maxSgLoadRegister) ∧
    (interval ≠ 0 → interval ≤ s.maxStallStepInterval →
      (s.TransferDone true dataIn interval).lastReadStatus = be32_to_cpu dataIn >>> 12 ∧
      (s.TransferDone true dataIn interval).accumulatedStatus
          = s.accumulatedStatus ||| (be32_to_cpu dataIn >>> 12) ∧
      (s.TransferDone true dataIn interval).minSgLoadRegister
          = min (((be32_to_cpu dataIn >>> 12) >>> TMC_RR_SG_LOAD_SHIFT) &&& 1023)
              s.minSgLoadRegister ∧
      (s.TransferDone true dataIn interval).maxSgLoadRegister
          = max (((be32_to_cpu dataIn >>> 12) >>> TMC_RR_SG_LOAD_SHIFT) &&& 1023)
              s.maxSgLoadRegister) := by
  constructor
  · intro h
    unfold TmcDriverState.TransferDone
    rw [if_pos rfl, if_pos h]
    exact ⟨rfl, rfl, rfl, rfl⟩
  · intro h1 h2
    unfold TmcDriverState.TransferDone
    rw [if_pos rfl, if_neg (by omega : ¬(interval = 0 ∨ interval > s.maxStallStepInterval))]
    refine ⟨rfl, rfl, ?_, ?_⟩
    · show (if _ < s.minSgLoadRegister then _ else s.minSgLoadRegister) = _
      rw [Nat.min_def]
      split_ifs <;> omega
    · show (if _ > s.maxSgLoadRegister then _ else s.maxSgLoadRegister) = _
      rw [Nat.max_def]
      split_ifs <;> omega

/-- Witness for C1 at the window boundary: `sampleDriver` has
`maxStallStepInterval = 5`, and at interval exactly 5 the decoded status word
is stored unmodified (SG honored). -/
theorem c1_transferDone_stall_window_witness :
    (5 : Nat) ≤ sampleDriver.maxStallStepInterval ∧
    (sampleDriver.TransferDone true 0x00001001 5).lastReadStatus
      = be32_to_cpu 0x00001001 >>> 12 :=
  ⟨by decide,
   ((c1_transferDone_stall_window sampleDriver 0x00001001 5).2 (by decide) (by decide)).1⟩

/-! ### C8: live status after enabling -/

theorem readLive_after_enable_sg (s : TmcDriverState) (hdis : s.enabled = false) :
    (s.Enable true).ReadLiveStatus &&& TMC_RR_SG = 0 := by
  have h1 : s.Enable true = TmcDriverState.UpdateChopConfRegister
      { s with
        accumulatedStatus := s.accumulatedStatus &&& compl32 TMC_RR_SG,
        lastReadStatus := s.lastReadStatus &&& compl32 TMC_RR_SG,
        enabled := true } := by
    unfold TmcDriverState.Enable
    rw [if_pos (show s.enabled ≠ true by simp [hdis])]
    rfl
  rw [h1]
  unfold TmcDriverState.UpdateChopConfRegister TmcDriverState.ReadLiveStatus
  rw [if_pos rfl]
  show ((s.lastReadStatus &&& compl32 TMC_RR_SG) &&& reportedStatusBits) &&& TMC_RR_SG = 0
  rw [Nat.and_assoc, (by decide : reportedStatusBits &&& TMC_RR_SG = TMC_RR_SG)]
  exact and_compl32_and_self s.lastReadStatus TMC_RR_SG (by decide)

/-- C8 (amended): enabling a driver that was disabled and immediately reading
its live status yields a status word with the SG bit clear; a driver that was
already enabled keeps whatever SG bit is in `lastReadStatus` (the enable call
is a no-op there, see the counterexample). -/
theorem c8_enable_then_live (gs : SmartDriversState) (d : Nat)
    (h : d < SmartDrivers.numDrivers gs)
    (hdis : (SmartDrivers.getDriver gs d).enabled = false) :
    SmartDrivers.GetLiveStatus (SmartDrivers.EnableDrive gs d true) d &&& TMC_RR_SG = 0 := by
  unfold SmartDrivers.EnableDrive
  rw [if_pos h]
  have hlen : d < SmartDrivers.numDrivers
      (SmartDrivers.updDriver gs d (fun s => s.Enable true)) := by
    unfold SmartDrivers.numDrivers SmartDrivers.updDriver
    simpa [length_setNthDriver] using h
  unfold SmartDrivers.GetLiveStatus
  rw [if_pos hlen, getDriver_updDriver gs d _ h]
  exact readLive_after_enable_sg _ hdis

/-- Witness for C8 on a freshly initialised (disabled) driver. -/
theorem c8_enable_then_live_witness :
    SmartDrivers.GetLiveStatus (SmartDrivers.EnableDrive sampleSystem 0 true) 0 &&&
      TMC_RR_SG = 0 :=
  c8_enable_then_live sampleSystem 0 (by decide) (by decide)

/-- Counterexample to C8 as stated: for a driver that is already enabled with
the SG bit latched in `lastReadStatus`, `enable_drive(true)` is a no-op and
the subsequent live status still reports SG. -/
theorem c8_enable_then_live_cex :
    SmartDrivers.GetLiveStatus (SmartDrivers.EnableDrive stalledEnabledSystem 0 true) 0 &&&
      TMC_RR_SG ≠ 0 := by
  decide

/-! ### C9: Spin with an unchanged powered state -/

/-- C9 (amended): a call `Spin(p)` with `p` equal to the current powered state
changes nothing, provided that `p` is false, or a transfer is in flight
(`currentDriver` set), or there are no drivers; when `p` is true with an idle
bus and at least one driver, the code (re)starts the transfer ring on driver 0
(see the counterexample). -/
theorem c9_spin_same_state (gs : SmartDriversState) (p : Bool)
    (h : gs.driversPowered = p)
    (hidle : p = false ∨ gs.currentDriver ≠ none ∨ gs.drivers.length = 0) :
    SmartDrivers.Spin gs p = gs := by
  obtain ⟨ds, dp, cd, el⟩ := gs
  cases h
  cases dp
  · simp [SmartDrivers.Spin]
  · simp only [] at hidle
    rcases hidle with h1 | h2 | h3
    · exact absurd h1 (by decide)
    · simp [SmartDrivers.Spin, h2]
    · simp [SmartDrivers.Spin, h3]

/-- Witness for C9: with a transfer in flight, a steady-state `Spin(true)` is
a no-op. -/
theorem c9_spin_same_state_witness :
    SmartDrivers.Spin stalledEnabledSystem true = stalledEnabledSystem :=
  c9_spin_same_state stalledEnabledSystem true (by decide) (Or.inr (Or.inl (by decide)))

/-- Counterexample to C9 as stated: when `driversPowered` is already true but
the bus is idle (`currentDriver` null) and a driver exists, the same-state
call `Spin(true)` is not a no-op — it kicks off a transfer (publishing
`currentDriver` and consuming a dirty bit of driver 0). -/
theorem c9_spin_same_state_cex :
    idlePoweredSystem.driversPowered = true ∧
    SmartDrivers.Spin idlePoweredSystem true ≠ idlePoweredSystem :=
  ⟨rfl, by decide⟩

/-! ### C5 and C6: chopper-control setters -/

theorem and_toffmask_small : ∀ n, n ≤ 15 → n &&& TMC_CHOPCONF_TOFF_MASK = n := by decide

theorem toff_of_update (cfg n : Nat) (hn : n ≤ 15) :
    ((cfg &&& compl32 TMC_CHOPCONF_TOFF_MASK) |||
      ((n <<< TMC_CHOPCONF_TOFF_SHIFT) &&& TMC_CHOPCONF_TOFF_MASK)) &&&
      TMC_CHOPCONF_TOFF_MASK = n := by
  rw [land_lor_right, and_compl32_and_self cfg TMC_CHOPCONF_TOFF_MASK (by decide), Nat.zero_or,
    Nat.and_assoc, Nat.and_self]
  simp only [TMC_CHOPCONF_TOFF_SHIFT, Nat.shiftLeft_zero]
  exact and_toffmask_small n hn

theorem tbl_of_update (cfg n : Nat) (hn : n ≤ 15) :
    ((cfg &&& compl32 TMC_CHOPCONF_TOFF_MASK) |||
      ((n <<< TMC_CHOPCONF_TOFF_SHIFT) &&& TMC_CHOPCONF_TOFF_MASK)) &&&
      TMC_CHOPCONF_TBL_MASK = cfg &&& TMC_CHOPCONF_TBL_MASK := by
  rw [land_lor_right,
    and_compl32_of_disjoint cfg TMC_CHOPCONF_TOFF_MASK TMC_CHOPCONF_TBL_MASK
      (by decide) (by decide) (by decide)]
  have h2 : ((n <<< TMC_CHOPCONF_TOFF_SHIFT) &&& TMC_CHOPCONF_TOFF_MASK) &&&
      TMC_CHOPCONF_TBL_MASK = 0 := by
    simp only [TMC_CHOPCONF_TOFF_SHIFT, Nat.shiftLeft_zero]
    rw [and_toffmask_small n hn]
    exact and_tbl_small n hn
  rw [h2, Nat.or_zero]

theorem setChopConf_false_frame (s : TmcDriverState) (v : Nat) :
    (s.SetChopConf v).1 = false → (s.SetChopConf v).2 = s := by
  simp only [TmcDriverState.SetChopConf]
  split
  · intro _
    rfl
  · intro h
    exact absurd h (by simp)

theorem setOffTime_spec (s : TmcDriverState) (n : Nat) :
    ((s.SetOffTime n).1 = true ↔
      (1 ≤ n ∧ n ≤ 15 ∧
        ¬(n = 1 ∧ s.configuredChopConfReg &&& TMC_CHOPCONF_TBL_MASK = 0))) ∧
    ((s.SetOffTime n).1 = false → (s.SetOffTime n).2 = s) := by
  by_cases hn : n > 15
  · constructor
    · simp only [TmcDriverState.SetOffTime]
      rw [if_pos hn]
      simp only [Bool.false_eq_true, false_iff]
      intro hc
      omega
    · simp only [TmcDriverState.SetOffTime]
      rw [if_pos hn]
      intro _
      rfl
  · have hn15 : n ≤ 15 := by omega
    have ht : ((((s.configuredChopConfReg &&& compl32 TMC_CHOPCONF_TOFF_MASK) |||
        ((n <<< TMC_CHOPCONF_TOFF_SHIFT) &&& TMC_CHOPCONF_TOFF_MASK)) &&&
        TMC_CHOPCONF_TOFF_MASK) >>> TMC_CHOPCONF_TOFF_SHIFT) = n := by
      rw [toff_of_update s.configuredChopConfReg n hn15]
      simp [TMC_CHOPCONF_TOFF_SHIFT]
    simp only [TmcDriverState.SetOffTime]
    rw [if_neg hn]
    simp only [TmcDriverState.SetChopConf]
    rw [ht, tbl_of_update s.configuredChopConfReg n hn15]
    constructor
    · split
      · rename_i hcond
        simp only [Bool.false_eq_true, false_iff]
        intro hc
        rcases hcond with h0 | hpair
        · omega
        · exact hc.2.2 hpair
      · rename_i hcond
        simp only [true_iff]
        push_neg at hcond
        exact ⟨by omega, hn15, fun hpair => (hcond.2 hpair.1) hpair.2⟩
    · split
      · intro _
        rfl
      · intro h
        exact absurd h (by simp)

/-- C5: for an in-range driver, `set_off_time(n)` succeeds exactly when
1 ≤ n ≤ 15 and not (n = 1 with the configured blanking field zero), and any
failing `set_off_time` or `set_chopper_control` leaves the whole facade state
(configured chopper value, all shadow registers and the dirty mask) unchanged. -/
theorem c5_setOffTime_validation (gs : SmartDriversState) (d n : Nat)
    (h : d < SmartDrivers.numDrivers gs) :
    ((SmartDrivers.SetOffTime gs d n).1 = true ↔
      (1 ≤ n ∧ n ≤ 15 ∧
        ¬(n = 1 ∧ (SmartDrivers.getDriver gs d).configuredChopConfReg &&&
            TMC_CHOPCONF_TBL_MASK = 0))) ∧
    ((SmartDrivers.SetOffTime gs d n).1 = false → (SmartDrivers.SetOffTime gs d n).2 = gs) ∧
    (∀ v, (SmartDrivers.SetChopperControlRegister gs d v).1 = false →
      (SmartDrivers.SetChopperControlRegister gs d v).2 = gs) := by
  refine ⟨?_, ?_, ?_⟩
  · simp only [SmartDrivers.SetOffTime]
    rw [if_pos h]
    exact (setOffTime_spec (SmartDrivers.getDriver gs d) n).1
  · simp only [SmartDrivers.SetOffTime]
    rw [if_pos h]
    intro hf
    have hframe := (setOffTime_spec (SmartDrivers.getDriver gs d) n).2 hf
    show { gs with drivers := SmartDrivers.setNthDriver gs.drivers d _ } = gs
    rw [hframe]
    show { gs with drivers :=
      SmartDrivers.setNthDriver gs.drivers d (SmartDrivers.nthDriver gs.drivers d) } = gs
    rw [setNthDriver_nthDriver_self gs.drivers d h]
  · intro v
    simp only [SmartDrivers.SetChopperControlRegister]
    rw [if_pos h]
    intro hf
    have hframe := setChopConf_false_frame (SmartDrivers.getDriver gs d) v hf
    show { gs with drivers := SmartDrivers.setNthDriver gs.drivers d _ } = gs
    rw [hframe]
    show { gs with drivers :=
      SmartDrivers.setNthDriver gs.drivers d (SmartDrivers.nthDriver gs.drivers d) } = gs
    rw [setNthDriver_nthDriver_self gs.drivers d h]

/-- Witness for C5: off-time 0 is rejected and the state is untouched; the
valid off-time 4 is accepted. -/
theorem c5_setOffTime_validation_witness :
    (SmartDrivers.SetOffTime sampleSystem 0 0).2 = sampleSystem ∧
    (SmartDrivers.SetOffTime sampleSystem 0 4).1 = true :=
  ⟨(c5_setOffTime_validation sampleSystem 0 0 (by decide)).2.1 (by decide),
   ((c5_setOffTime_validation sampleSystem 0 4 (by decide)).1).mpr
     (by refine ⟨by decide, by decide, ?_⟩; decide)⟩

theorem setChopConf_roundtrip_driver (s : TmcDriverState) (v : Nat)
    (h1 : v &&& TMC_CHOPCONF_TOFF_MASK ≠ 0)
    (h2 : ¬(v &&& TMC_CHOPCONF_TOFF_MASK = 1 ∧ v &&& TMC_CHOPCONF_TBL_MASK = 0)) :
    (s.SetChopConf v).2.GetChopConf = v &&& 0x1FFFF := by
  have ht : ((v &&& TMC_CHOPCONF_TOFF_MASK) >>> TMC_CHOPCONF_TOFF_SHIFT)
      = v &&& TMC_CHOPCONF_TOFF_MASK := by
    simp [TMC_CHOPCONF_TOFF_SHIFT]
  simp only [TmcDriverState.SetChopConf]
  rw [ht, if_neg (by
    intro hor
    rcases hor with h0 | hpair
    · exact h1 h0
    · exact h2 hpair)]
  show (((v &&& 0x0001FFFF) ||| TMC_REG_CHOPCONF) &&& TMC_DATA_MASK) = v &&& 0x1FFFF
  rw [land_lor_right, Nat.and_assoc,
    (by decide : (0x0001FFFF : Nat) &&& TMC_DATA_MASK = 0x1FFFF),
    (by decide : TMC_REG_CHOPCONF &&& TMC_DATA_MASK = 0), Nat.or_zero]

/-- C6: for every value accepted by `set_chopper_control` (off-time field
nonzero and not off-time 1 with blanking 0), an immediately following
`get_chopper_control` on the same driver returns `v &&& 0x1FFFF`. -/
theorem c6_chopConf_roundtrip (gs : SmartDriversState) (d v : Nat)
    (h : d < SmartDrivers.numDrivers gs)
    (h1 : v &&& TMC_CHOPCONF_TOFF_MASK ≠ 0)
    (h2 : ¬(v &&& TMC_CHOPCONF_TOFF_MASK = 1 ∧ v &&& TMC_CHOPCONF_TBL_MASK = 0)) :
    SmartDrivers.GetChopperControlRegister
      (SmartDrivers.SetChopperControlRegister gs d v).2 d = v &&& 0x1FFFF := by
  simp only [SmartDrivers.SetChopperControlRegister]
  rw [if_pos h]
  have hlen : d < SmartDrivers.numDrivers
      { gs with drivers :=
          SmartDrivers.setNthDriver gs.drivers d ((SmartDrivers.getDriver gs d).SetChopConf v).2 } := by
    unfold SmartDrivers.numDrivers
    simpa [length_setNthDriver] using h
  simp only [SmartDrivers.GetChopperControlRegister]
  rw [if_pos hlen]
  show ((SmartDrivers.nthDriver (SmartDrivers.setNthDriver gs.drivers d
      ((SmartDrivers.getDriver gs d).SetChopConf v).2) d)).GetChopConf = v &&& 0x1FFFF
  rw [nthDriver_setNthDriver_self gs.drivers d _ h]
  exact setChopConf_roundtrip_driver (SmartDrivers.getDriver gs d) v h1 h2

/-- Witness for C6 at the datasheet example chopper value 0x901B4. -/
theorem c6_chopConf_roundtrip_witness :
    SmartDrivers.GetChopperControlRegister
      (SmartDrivers.SetChopperControlRegister sampleSystem 0 0x901B4).2 0
      = 0x901B4 &&& 0x1FFFF :=
  c6_chopConf_roundtrip sampleSystem 0 0x901B4 (by decide) (by decide) (by decide)

/-! ### C4: microstepping round-trip -/

theorem countShift_pow2 : ∀ k s : Nat, countShift (2 ^ k) s = (1, s + k) := by
  intro k
  induction k with
  | zero =>
    intro s
    rw [countShift]
    simp
  | succ n ih =>
    intro s
    have h1 : 2 ^ (n + 1) &&& 1 = 0 := by
      rw [Nat.and_one_is_mod, Nat.pow_succ, Nat.mul_mod_left]
    have h2 : 2 ^ (n + 1) ≠ 0 := Nat.pos_iff_ne_zero.mp (Nat.pos_pow_of_pos _ (by norm_num))
    have h3 : 2 ^ (n + 1) >>> 1 = 2 ^ n := by
      rw [Nat.shiftRight_succ, Nat.shiftRight_zero, Nat.pow_succ, Nat.mul_div_cancel _ (by norm_num)]
    rw [countShift, if_pos h1, dif_neg h2, h3, ih (s + 1)]
    simp [Nat.add_assoc, Nat.add_comm 1 n]

theorem countShift_decomp : ∀ u : Nat, 0 < u → ∀ s : Nat,
    (countShift u s).1 * 2 ^ ((countShift u s).2 - s) = u ∧ s ≤ (countShift u s).2 := by
  intro u
  induction u using Nat.strong_induction_on with
  | _ u ih =>
    intro hu s
    rw [countShift]
    by_cases h1 : u &&& 1 = 0
    · rw [if_pos h1, dif_neg (Nat.pos_iff_ne_zero.mp hu)]
      have heven : u % 2 = 0 := by rw [← Nat.and_one_is_mod]; exact h1
      have hhalf : u >>> 1 = u / 2 := by
        rw [Nat.shiftRight_succ, Nat.shiftRight_zero]
      have hlt : u / 2 < u := Nat.div_lt_self hu (by norm_num)
      have hpos : 0 < u / 2 := by omega
      rw [hhalf]
      obtain ⟨ha, hb⟩ := ih (u / 2) hlt hpos (s + 1)
      constructor
      · have hsp : (countShift (u / 2) (s + 1)).2 - s
            = ((countShift (u / 2) (s + 1)).2 - (s + 1)) + 1 := by omega
        rw [hsp, pow_succ, ← Nat.mul_assoc, ha]
        omega
      · omega
    · rw [if_neg h1]
      exact ⟨by simp, Nat.le_refl s⟩

theorem and_mres_small : ∀ n, n ≤ 15 → n &&& TMC_DRVCTRL_MRES_MASK = n := by decide

theorem setMicrostepping_fields (s : TmcDriverState) (k : Nat) (intp : Bool) (hk : k ≤ 8) :
    (s.SetMicrostepping k intp).microstepShiftFactor = k ∧
    (s.SetMicrostepping k intp).regDriveControl &&& TMC_DRVCTRL_MRES_MASK = 8 - k ∧
    (((s.SetMicrostepping k intp).regDriveControl &&& TMC_DRVCTRL_INTPOL ≠ 0) ↔ intp = true) := by
  have hsub : sub32 8 k = 8 - k := sub32_of_le 8 k hk (by norm_num)
  refine ⟨rfl, ?_, ?_⟩
  · cases intp
    · show ((((s.regDriveControl &&& compl32 TMC_DRVCTRL_MRES_MASK) |||
          ((sub32 8 k <<< TMC_DRVCTRL_MRES_SHIFT) &&& TMC_DRVCTRL_MRES_MASK)) &&&
          compl32 TMC_DRVCTRL_INTPOL) &&& TMC_DRVCTRL_MRES_MASK) = 8 - k
      rw [and_compl32_of_disjoint _ TMC_DRVCTRL_INTPOL TMC_DRVCTRL_MRES_MASK
          (by decide) (by decide) (by decide),
        land_lor_right, and_compl32_and_self _ _ (by decide), Nat.zero_or,
        Nat.and_assoc, Nat.and_self]
      simp only [TMC_DRVCTRL_MRES_SHIFT, Nat.shiftLeft_zero, hsub]
      exact and_mres_small (8 - k) (by omega)
    · show ((((s.regDriveControl &&& compl32 TMC_DRVCTRL_MRES_MASK) |||
          ((sub32 8 k <<< TMC_DRVCTRL_MRES_SHIFT) &&& TMC_DRVCTRL_MRES_MASK)) |||
          TMC_DRVCTRL_INTPOL) &&& TMC_DRVCTRL_MRES_MASK) = 8 - k
      rw [land_lor_right, land_lor_right, and_compl32_and_self _ _ (by decide), Nat.zero_or,
        (by decide : TMC_DRVCTRL_INTPOL &&& TMC_DRVCTRL_MRES_MASK = 0), Nat.or_zero,
        Nat.and_assoc, Nat.and_self]
      simp only [TMC_DRVCTRL_MRES_SHIFT, Nat.shiftLeft_zero, hsub]
      exact and_mres_small (8 - k) (by omega)
  · cases intp
    · show ((((s.regDriveControl &&& compl32 TMC_DRVCTRL_MRES_MASK) |||
          ((sub32 8 k <<< TMC_DRVCTRL_MRES_SHIFT) &&& TMC_DRVCTRL_MRES_MASK)) &&&
          compl32 TMC_DRVCTRL_INTPOL) &&& TMC_DRVCTRL_INTPOL ≠ 0) ↔ false = true
      rw [and_compl32_and_self _ TMC_DRVCTRL_INTPOL (by decide)]
      simp
    · show ((((s.regDriveControl &&& compl32 TMC_DRVCTRL_MRES_MASK) |||
          ((sub32 8 k <<< TMC_DRVCTRL_MRES_SHIFT) &&& TMC_DRVCTRL_MRES_MASK)) |||
          TMC_DRVCTRL_INTPOL) &&& TMC_DRVCTRL_INTPOL ≠ 0) ↔ true = true
      simp only [iff_true]
      intro h0
      have hb : ((((s.regDriveControl &&& compl32 TMC_DRVCTRL_MRES_MASK) |||
          ((sub32 8 k <<< TMC_DRVCTRL_MRES_SHIFT) &&& TMC_DRVCTRL_MRES_MASK)) |||
          TMC_DRVCTRL_INTPOL) &&& TMC_DRVCTRL_INTPOL).testBit 9 = false := by
        rw [h0]
        exact Nat.zero_testBit 9
      rw [Nat.testBit_and, Nat.testBit_or] at hb
      simp [(by decide : TMC_DRVCTRL_INTPOL.testBit 9 = true)] at hb

theorem getMicrostepping_after_set (s : TmcDriverState) (k : Nat) (intp : Bool) (hk : k ≤ 8) :
    (s.SetMicrostepping k intp).GetMicrostepping = (2 ^ k, intp) := by
  obtain ⟨h1, _, h3⟩ := setMicrostepping_fields s k intp hk
  unfold TmcDriverState.GetMicrostepping
  rw [h1]
  simp only [Prod.mk.injEq]
  constructor
  · exact Nat.one_shiftLeft k
  · cases intp
    · have hz : (s.SetMicrostepping k false).regDriveControl &&& TMC_DRVCTRL_INTPOL = 0 := by
        by_contra hc
        exact absurd (h3.mp hc) (by decide)
      simp [hz]
    · have hnz := h3.mpr rfl
      simp [bne_iff_ne, hnz]

/-- C4: for an in-range driver and every power-of-two microstep count
`m = 2 ^ k` with `k ≤ 8`, `set_microstepping` succeeds, stores the shift `k`,
writes `8 - k` into the MRES field with INTPOL set iff requested, and
`get_microstepping` then returns `m` with the requested interpolation flag;
for every other `m` it returns false and changes nothing. -/
theorem c4_set_microstepping (gs : SmartDriversState) (d m : Nat) (intp : Bool)
    (hd : d < SmartDrivers.numDrivers gs) :
    (∀ k, k ≤ 8 → m = 2 ^ k →
      (SmartDrivers.SetMicrostepping gs d m intp).1 = true ∧
      (SmartDrivers.getDriver (SmartDrivers.SetMicrostepping gs d m intp).2 d).microstepShiftFactor
          = k ∧
      (SmartDrivers.getDriver (SmartDrivers.SetMicrostepping gs d m intp).2 d).regDriveControl &&&
          TMC_DRVCTRL_MRES_MASK = 8 - k ∧
      (((SmartDrivers.getDriver (SmartDrivers.SetMicrostepping gs d m intp).2 d).regDriveControl &&&
          TMC_DRVCTRL_INTPOL ≠ 0) ↔ intp = true) ∧
      SmartDrivers.GetMicrostepping (SmartDrivers.SetMicrostepping gs d m intp).2 d = (m, intp)) ∧
    ((∀ k, k ≤ 8 → m ≠ 2 ^ k) →
      SmartDrivers.SetMicrostepping gs d m intp = (false, gs)) := by
  constructor
  · intro k hk hm
    subst hm
    have hpos : 0 < 2 ^ k := Nat.pos_pow_of_pos k (by norm_num)
    have hcs : countShift (2 ^ k) 0 = (1, k) := by
      have h := countShift_pow2 k 0
      simpa using h
    have hset : SmartDrivers.SetMicrostepping gs d (2 ^ k) intp
        = (true, SmartDrivers.updDriver gs d (fun s => s.SetMicrostepping k intp)) := by
      simp only [SmartDrivers.SetMicrostepping]
      rw [if_pos ⟨hd, hpos⟩, hcs, if_pos ⟨rfl, hk⟩]
    rw [hset]
    have hget := getDriver_updDriver gs d (fun s => s.SetMicrostepping k intp) hd
    obtain ⟨h1, h2, h3⟩ :=
      setMicrostepping_fields (SmartDrivers.getDriver gs d) k intp hk
    refine ⟨rfl, ?_, ?_, ?_, ?_⟩
    · rw [hget]; exact h1
    · rw [hget]; exact h2
    · rw [hget]; exact h3
    · have hlen : d < SmartDrivers.numDrivers
          (SmartDrivers.updDriver gs d (fun s => s.SetMicrostepping k intp)) := by
        unfold SmartDrivers.numDrivers SmartDrivers.updDriver
        simpa [length_setNthDriver] using hd
      simp only [SmartDrivers.GetMicrostepping]
      rw [if_pos hlen, hget]
      exact getMicrostepping_after_set (SmartDrivers.getDriver gs d) k intp hk
  · intro hneg
    simp only [SmartDrivers.SetMicrostepping]
    by_cases hm0 : 0 < m
    · rw [if_pos ⟨hd, hm0⟩]
      have hfalse : ¬((countShift m 0).1 = 1 ∧ (countShift m 0).2 ≤ 8) := by
        rintro ⟨h1, h2⟩
        obtain ⟨ha, _⟩ := countShift_decomp m hm0 0
        rw [h1, Nat.one_mul, Nat.sub_zero] at ha
        exact hneg _ h2 ha.symm
      rw [if_neg hfalse]
    · rw [if_neg (by rintro ⟨_, h⟩; exact hm0 h)]

/-- Witness for C4: requesting 16x microstepping with interpolation on
driver 0 succeeds and reads back as (16, true). -/
theorem c4_set_microstepping_witness :
    (SmartDrivers.SetMicrostepping sampleSystem 0 16 true).1 = true ∧
    SmartDrivers.GetMicrostepping (SmartDrivers.SetMicrostepping sampleSystem 0 16 true).2 0
      = (16, true) := by
  have h := (c4_set_microstepping sampleSystem 0 16 true (by decide)).1 4 (by decide) (by norm_num)
  exact ⟨h.1, h.2.2.2.2⟩

/-! ### C10: stall threshold encode/decode round-trip -/

theorem sgt_encode_decode (c : Int) (h1 : -64 ≤ c) (h2 : c ≤ 63) :
    (if 64 ≤ ((c.emod 4294967296).toNat &&& 127) then
        (((c.emod 4294967296).toNat &&& 127 : Nat) : Int) - 128
      else (((c.emod 4294967296).toNat &&& 127 : Nat) : Int)) = c := by
  interval_cases c <;> decide

theorem stall_threshold_roundtrip_driver (s : TmcDriverState) (t : Int) :
    (s.SetStallDetectThreshold t).AppendStallConfigThreshold = max (-64) (min t 63) := by
  have hc1 : -64 ≤ TmcDriverState.constrainInt t (-64) 63 := by
    unfold TmcDriverState.constrainInt
    split_ifs <;> omega
  have hc2 : TmcDriverState.constrainInt t (-64) 63 ≤ 63 := by
    unfold TmcDriverState.constrainInt
    split_ifs <;> omega
  have hcm : TmcDriverState.constrainInt t (-64) 63 = max (-64) (min t 63) := by
    unfold TmcDriverState.constrainInt
    split_ifs <;> omega
  have hlt : ((TmcDriverState.constrainInt t (-64) 63).emod 4294967296).toNat &&& 127 < 2 ^ 7 := by
    have h := Nat.and_le_right
      (n := ((TmcDriverState.constrainInt t (-64) 63).emod 4294967296).toNat) (m := 127)
    omega
  have hraw : (((s.regStallGuardConfig &&& compl32 TMC_SGCSCONF_SGT_MASK) |||
      ((((TmcDriverState.constrainInt t (-64) 63).emod 4294967296).toNat &&& 127) <<<
        TMC_SGCSCONF_SGT_SHIFT)) &&&
      TMC_SGCSCONF_SGT_MASK) >>> TMC_SGCSCONF_SGT_SHIFT
      = ((TmcDriverState.constrainInt t (-64) 63).emod 4294967296).toNat &&& 127 := by
    have hmask : TMC_SGCSCONF_SGT_MASK = (2 ^ 7 - 1) <<< 8 := by decide
    have hshift : TMC_SGCSCONF_SGT_SHIFT = 8 := rfl
    rw [hmask, hshift]
    exact field_roundtrip s.regStallGuardConfig _ 7 8 hlt (by norm_num)
  simp only [TmcDriverState.SetStallDetectThreshold, TmcDriverState.AppendStallConfigThreshold]
  rw [hraw, sgt_encode_decode (TmcDriverState.constrainInt t (-64) 63) hc1 hc2]
  exact hcm

/-- C10: for every integer t, after `set_stall_threshold(driver, t)` on an
in-range driver the threshold printed by `append_stall_config` equals t
clamped to [-64, 63] — the 7-bit twos-complement SGT encoding and the
display decoding are mutual inverses on that interval. -/
theorem c10_stall_threshold_roundtrip (gs : SmartDriversState) (d : Nat) (t : Int)
    (h : d < SmartDrivers.numDrivers gs) :
    (SmartDrivers.getDriver (SmartDrivers.SetStallThreshold gs d t) d).AppendStallConfigThreshold
      = max (-64) (min t 63) := by
  simp only [SmartDrivers.SetStallThreshold]
  rw [if_pos h, getDriver_updDriver gs d _ h]
  exact stall_threshold_roundtrip_driver (SmartDrivers.getDriver gs d) t

/-- Witness for C10: threshold 100 clamps to 63 and -100 clamps to -64. -/
theorem c10_stall_threshold_roundtrip_witness :
    (SmartDrivers.getDriver (SmartDrivers.SetStallThreshold sampleSystem 0 100)
        0).AppendStallConfigThreshold = max (-64) (min 100 63) ∧
    (SmartDrivers.getDriver (SmartDrivers.SetStallThreshold sampleSystem 0 (-100))
        0).AppendStallConfigThreshold = max (-64) (min (-100) 63) :=
  ⟨c10_stall_threshold_roundtrip sampleSystem 0 100 (by decide),
   c10_stall_threshold_roundtrip sampleSystem 0 (-100) (by decide)⟩
